/-
Verification of the reddit sentiment-analysis backend (`api.py`).

The Python source is shallowly embedded: pure computations become Lean
functions over `String`, `Int`, `Nat`, `Rat` and `List`; the sqlite posts
table becomes a `List StoredPost` keyed by `id`; external HTTP calls
(the llama.cpp classifier and summarizer, the Reddit fetch) become oracle
values/functions supplied as parameters, whose constructors distinguish the
outcomes the Python code distinguishes (raised exception, HTTP status,
decoded payload).  Timestamps are integer unix seconds; Python floats are
modelled as exact rationals.
-/
import Mathlib

set_option maxHeartbeats 1000000

namespace RedditSenty

/-! ### Small Python-modelling helpers -/

/-- Substring test on character lists: `needle` occurs somewhere in `hay`
(model of Python `needle in hay`). -/
def charsContain (hay needle : List Char) : Bool :=
  needle.isPrefixOf hay ||
    match hay with
    | [] => false
    | _ :: t => charsContain t needle

/-- Model of Python `needle in hay` for strings. -/
def strContains (hay needle : String) : Bool :=
  charsContain hay.toList needle.toList

/-- Seconds per calendar day; the model's `DATE(ts)` is `fdiv ts 86400`. -/
def secPerDay : Int := 86400

/-- Calendar day of a unix timestamp (model of `DATE(created_utc)` /
`strftime "%Y-%m-%d"`): floor division by the day length. -/
def dayOf (t : Int) : Int := Int.fdiv t secPerDay

/-- Model of Python `round(x, 1)` (round half to even at one decimal). -/
def pyRound1 (x : Rat) : Rat :=
  let y := x * 10
  let f := ⌊y⌋
  let r := y - f
  (if r < 1/2 then (f : Rat) else if 1/2 < r then (f + 1 : Int) else
    if f % 2 = 0 then (f : Rat) else (f + 1 : Int)) / 10

/-- Model of Python `s or None` on an optional string: an empty string is
falsy and collapses to `None`. -/
def pyOrNone (s : Option String) : Option String :=
  match s with
  | some "" => none
  | some t => some t
  | none => none

/-! ### The numeric-score scanner

Model of `re.search(r"[-+]?\d*\.?\d+", completion)` followed by
`float(match.group())`. -/

/-- Attempt of the regex body `\d*\.?\d+` at the head of `l`, with the
backtracking the Python engine performs: a maximal digit run, optionally
followed by a dot and a further nonempty maximal digit run; a trailing
bare dot is not consumed. -/
def matchBody (l : List Char) : Option (List Char) :=
  let p := l.span (·.isDigit)
  match p.2 with
  | '.' :: rest2 =>
      let q := rest2.span (·.isDigit)
      if q.1 ≠ [] then some (p.1 ++ '.' :: q.1)
      else if p.1 ≠ [] then some p.1 else none
  | _ => if p.1 ≠ [] then some p.1 else none

/-- Attempt of the full pattern `[-+]?\d*\.?\d+` anchored at the head. -/
def matchAt (l : List Char) : Option (List Char) :=
  match l with
  | c :: rest =>
      if c = '+' ∨ c = '-' then (matchBody rest).map (c :: ·)
      else matchBody l
  | [] => none

/-- Leftmost match of the pattern anywhere in `l` (model of `re.search`). -/
def reSearchNum (l : List Char) : Option (List Char) :=
  match matchAt l with
  | some m => some m
  | none =>
      match l with
      | [] => none
      | _ :: t => reSearchNum t

/-- Numeric value of a digit run. -/
def digitsToNat (ds : List Char) : Nat :=
  ds.foldl (fun a c => a * 10 + (c.toNat - '0'.toNat)) 0

/-- Exact value of a matched numeral (model of Python `float` on a token
produced by the scanner above). -/
def parseNum (l : List Char) : Rat :=
  let sr : Rat × List Char :=
    match l with
    | '+' :: t => (1, t)
    | '-' :: t => (-1, t)
    | t => (1, t)
  let ip := sr.2.span (·.isDigit)
  match ip.2 with
  | '.' :: t => sr.1 * ((digitsToNat ip.1 : Rat) + (digitsToNat t : Rat) / (10 : Rat) ^ t.length)
  | _ => sr.1 * (digitsToNat ip.1 : Rat)

/-! ### Sentiment classifier client (`analyze_sentiment`) -/

/-- Outcome of the llama.cpp `/completion` call as the Python code can
observe it: a raised exception (timeout, connection error, JSON decode
error — all caught by the same handler), or a decoded JSON response with
an HTTP status and an optional `content` field (`result.get("content", "")`
defaults a missing field to the empty string). -/
inductive LlamaOutcome where
  | failure
  | response (status : Nat) (content : Option String)

/-- Parsing of a successful completion (body of `analyze_sentiment` after
the status check): category by case-insensitive token containment, default
score by category, then the first regex numeral overrides the score when it
lies in [-1, 1]. -/
def parseCompletion (completion : String) : String × Rat :=
  let up := completion.toUpper
  let sc : String × Rat :=
    if strContains up "POSITIVE" then ("positive", 7/10)
    else if strContains up "NEGATIVE" then ("negative", -(7/10))
    else ("neutral", 0)
  match reSearchNum completion.toList with
  | some m =>
      let s := parseNum m
      if -1 ≤ s ∧ s ≤ 1 then (sc.1, s) else sc
  | none => sc

/-- Model of `analyze_sentiment`: `(None, None)` on any exception or
non-200 status, otherwise the parsed `(sentiment, score)` pair. -/
def analyze_sentiment (r : LlamaOutcome) : Option String × Option Rat :=
  match r with
  | .failure => (none, none)
  | .response status content =>
      if status ≠ 200 then (none, none)
      else
        let p := parseCompletion (content.getD "")
        (some p.1, some p.2)

/-- The parsing policy in the words of the specification (§4.3): the
category defaults to `neutral` unless the response contains "POSITIVE"
case-insensitively (then `positive`, default score +0.7), else "NEGATIVE"
(then `negative`, default score -0.7); independently the first signed
decimal number found anywhere, when within [-1, 1], overrides the default
score without re-deriving the category; every failure yields unset/unset. -/
def classifySpecPolicy (r : LlamaOutcome) : Option String × Option Rat :=
  match r with
  | .failure => (none, none)
  | .response status content =>
      if status = 200 then
        let text := content.getD ""
        let category :=
          if strContains text.toUpper "POSITIVE" then "positive"
          else if strContains text.toUpper "NEGATIVE" then "negative"
          else "neutral"
        let defaultScore : Rat :=
          if category = "positive" then 7/10
          else if category = "negative" then -(7/10)
          else 0
        let score : Rat :=
          match (reSearchNum text.toList).map parseNum with
          | some v => if -1 ≤ v ∧ v ≤ 1 then v else defaultScore
          | none => defaultScore
        (some category, some score)
      else (none, none)

theorem analyze_sentiment_eq_spec (r : LlamaOutcome) :
    analyze_sentiment r = classifySpecPolicy r := by
  cases r with
  | failure => rfl
  | response status content =>
      by_cases h : status = 200
      · subst h
        simp only [analyze_sentiment, classifySpecPolicy, parseCompletion, ne_eq,
          not_true_eq_false, if_false, if_true, reduceIte, Option.map]
        by_cases hp : strContains (content.getD "").toUpper "POSITIVE"
        · simp only [hp, if_true, reduceIte]
          cases hm : reSearchNum (content.getD "").toList <;> simp [hm] <;>
            (try (split <;> simp))
        · by_cases hn : strContains (content.getD "").toUpper "NEGATIVE"
          · simp only [hp, hn, Bool.false_eq_true, if_false, if_true, reduceIte]
            cases hm : reSearchNum (content.getD "").toList <;> simp [hm] <;>
            (try (split <;> simp))
          · simp only [hp, hn, Bool.false_eq_true, if_false, reduceIte]
            cases hm : reSearchNum (content.getD "").toList <;> simp [hm] <;>
            (try (split <;> simp))
      · simp [analyze_sentiment, classifySpecPolicy, h]

/-! ### Posts and the sqlite store

The `posts` table is modelled as a `List StoredPost`; `id` is the primary
key.  `INSERT OR REPLACE` deletes any row with the same `id` and inserts
the new row; row lookup is `List.find?` on the id. -/

/-- A post as returned by `fetch_reddit_posts` (no sentiment fields). -/
structure RawPost where
  id : String
  title : String
  selftext : String
  author : String
  score : Int
  ups : Int
  downs : Int
  num_comments : Int
  created_utc : Int
  permalink : String
  url : String
  subreddit : String
deriving DecidableEq

/-- A row of the `posts` table. -/
structure StoredPost where
  id : String
  title : String
  selftext : String
  author : String
  score : Int
  ups : Int
  downs : Int
  num_comments : Int
  created_utc : Int
  permalink : String
  url : String
  subreddit : String
  sentiment : Option String
  sentiment_score : Option Rat
  analyzed_at : Option Int
deriving DecidableEq

/-- Row lookup by primary key (`SELECT ... WHERE id = ?`). -/
def findPost (store : List StoredPost) (i : String) : Option StoredPost :=
  store.find? (fun r => r.id = i)

/-- The existence check of `fetch_and_analyze_subreddit`
(`SELECT id FROM posts WHERE id = ?` then `fetchone()`). -/
def existsId (store : List StoredPost) (i : String) : Bool :=
  (findPost store i).isSome

/-- The row `store_post` builds for a fetched post. -/
def mkStored (now : Int) (post : RawPost) (sentiment : Option String)
    (score : Option Rat) : StoredPost :=
  { id := post.id, title := post.title, selftext := post.selftext,
    author := post.author, score := post.score, ups := post.ups,
    downs := post.downs, num_comments := post.num_comments,
    created_utc := post.created_utc, permalink := post.permalink,
    url := post.url, subreddit := post.subreddit,
    sentiment := pyOrNone sentiment, sentiment_score := score,
    analyzed_at := some now }

/-- Model of `store_post`: `INSERT OR REPLACE` keyed by `id`. -/
def store_post (now : Int) (store : List StoredPost) (post : RawPost)
    (sentiment : Option String) (score : Option Rat) : List StoredPost :=
  store.filter (fun r => r.id ≠ post.id) ++ [mkStored now post sentiment score]

/-- Result of one `fetch_and_analyze_subreddit` run: the store, the
`analyzed` counter (= number of `store_post` mutations), and the number of
external classifier calls issued. -/
structure IngestResult where
  store : List StoredPost
  analyzed : Nat
  classifierCalls : Nat
deriving DecidableEq

/-- The per-post body of the loop in `fetch_and_analyze_subreddit`: skip
when the id already exists, else call the classifier once and store. -/
def ingestStep (now : Int) (oracle : RawPost → LlamaOutcome)
    (acc : IngestResult) (post : RawPost) : IngestResult :=
  if existsId acc.store post.id then acc
  else
    let p := analyze_sentiment (oracle post)
    { store := store_post now acc.store post p.1 p.2,
      analyzed := acc.analyzed + 1,
      classifierCalls := acc.classifierCalls + 1 }

/-- Model of `fetch_and_analyze_subreddit` applied to the posts the Reddit
fetch returned (the classifier outcome for each post is the oracle). -/
def fetch_and_analyze (now : Int) (oracle : RawPost → LlamaOutcome)
    (store : List StoredPost) (posts : List RawPost) : IngestResult :=
  posts.foldl (ingestStep now oracle) ⟨store, 0, 0⟩

/-! ### The background sweep (`background_fetcher` body) and cleanup -/

/-- `KEEP_MONTHS` from the source. -/
def KEEP_MONTHS : Nat := 6

/-- Trace events of one sweep of the background loop. -/
inductive SweepEvent where
  | fetchOk (sub : String) (analyzed : Nat)
  | fetchErr (sub : String) (msg : String)
  | cleanupRun
deriving DecidableEq

/-- One source inside the sweep: the `try`/`except` around
`fetch_and_analyze_subreddit` catches any exception and only logs it. A
source is given as its name together with either the posts its fetch and
analysis processed or the exception that run raised. -/
def runSource (now : Int) (oracle : RawPost → LlamaOutcome)
    (store : List StoredPost) (src : String × Except String (List RawPost)) :
    List StoredPost × SweepEvent :=
  match src.2 with
  | .error e => (store, .fetchErr src.1 e)
  | .ok posts =>
      let r := fetch_and_analyze now oracle store posts
      (r.store, .fetchOk src.1 r.analyzed)

/-- Model of `cleanup_old_posts`: `DELETE FROM posts WHERE created_utc < ?`
with `cutoff = now - KEEP_MONTHS * 30 days`; `outcome` is whether the
database call raised. There is no `try`/`except` in `cleanup_old_posts`
nor around its call site. -/
def cleanup_old_posts (now : Int) (store : List StoredPost)
    (outcome : Except String Unit) : Except String (List StoredPost) :=
  let cutoff := now - (KEEP_MONTHS * 30 : Nat) * secPerDay
  match outcome with
  | .ok _ => .ok (store.filter (fun p => ¬ p.created_utc < cutoff))
  | .error e => .error e

/-- One iteration of the `while True` loop of `background_fetcher`: every
source in order, each inside its own exception handler, then one uncaught
`cleanup_old_posts` call. The result is the surviving store — or the
exception that escaped the loop body — together with the event trace. -/
def sweepStep (now : Int) (oracle : RawPost → LlamaOutcome)
    (acc : List StoredPost × List SweepEvent)
    (src : String × Except String (List RawPost)) :
    List StoredPost × List SweepEvent :=
  let r := runSource now oracle acc.1 src
  (r.1, acc.2 ++ [r.2])

def sweepOnce (now : Int) (oracle : RawPost → LlamaOutcome)
    (store : List StoredPost)
    (sources : List (String × Except String (List RawPost)))
    (cleanupOutcome : Except String Unit) :
    Except String (List StoredPost) × List SweepEvent :=
  let swept := sources.foldl (sweepStep now oracle) (store, [])
  match cleanup_old_posts now swept.1 cleanupOutcome with
  | .ok store2 => (.ok store2, swept.2 ++ [.cleanupRun])
  | .error e => (.error e, swept.2 ++ [.cleanupRun])

/-! ### Aggregation engine -/

/-- A percentage as both analysis endpoints compute it:
`(count / total * 100) if total > 0 else 0`. -/
def pctOf (count total : Nat) : Rat :=
  if 0 < total then (count : Rat) / (total : Rat) * 100 else 0

/-- The overall-tone if-chain, identical in `search_analysis` and
`search_analysis_stream`. -/
def overallTone (pp np : Rat) : String :=
  if pp > 60 then "Mostly Positive"
  else if np > 60 then "Mostly Negative"
  else if pp > 40 ∧ np > 40 then "Mixed (Polarized)"
  else if pp > 30 ∧ np < 20 then "Slightly Positive"
  else if np > 30 ∧ pp < 20 then "Slightly Negative"
  else "Neutral/Mixed"

/-- The six labels `overallTone` can produce. -/
def toneLabels : List String :=
  ["Mostly Positive", "Mostly Negative", "Mixed (Polarized)",
   "Slightly Positive", "Slightly Negative", "Neutral/Mixed"]

/-- The tone rules as the specification lists them (§4.5): guard and label,
in priority order; the final "otherwise" case is the default label. -/
def toneTable : List ((Rat → Rat → Bool) × String) :=
  [(fun pp _ => decide (pp > 60), "Mostly Positive"),
   (fun _ np => decide (np > 60), "Mostly Negative"),
   (fun pp np => decide (pp > 40 ∧ np > 40), "Mixed (Polarized)"),
   (fun pp np => decide (pp > 30 ∧ np < 20), "Slightly Positive"),
   (fun pp np => decide (np > 30 ∧ pp < 20), "Slightly Negative")]

/-- First-matching-rule evaluation of a tone table. -/
def selectTone : List ((Rat → Rat → Bool) × String) → Rat → Rat → String
  | [], _, _ => "Neutral/Mixed"
  | r :: rest, pp, np => if r.1 pp np then r.2 else selectTone rest pp np

/-- The specification's description of the tone policy: the label of the
first matching rule of the priority-ordered table. -/
def firstMatchingTone (pp np : Rat) : String :=
  selectTone toneTable pp np

/-! ### Search-surface sentiment counting and filters -/

/-- Python `s.split(",")` over the characters of `s`. -/
def splitCommaChars : List Char → List (List Char)
  | [] => [[]]
  | c :: t =>
      match splitCommaChars t with
      | [] => [[c]]
      | h :: r => if c = ',' then [] :: h :: r else (c :: h) :: r

/-- A whitespace character as Python `str.strip()` removes it. -/
def isPySpace (c : Char) : Bool :=
  c = ' ' ∨ c = '\t' ∨ c = '\n' ∨ c = '\r' ∨ c = '\x0b' ∨ c = '\x0c'

/-- Python `str.strip()`: whitespace removed from both ends. -/
def pyStrip (s : String) : String :=
  ⟨(((s.toList.dropWhile isPySpace).reverse).dropWhile isPySpace).reverse⟩

/-- Python `s.split(",")`. -/
def pySplitComma (s : String) : List String :=
  (splitCommaChars s.toList).map (fun l => ⟨l⟩)

/-- The comma-separated subreddit filter of the search endpoints:
`if subreddits: sub_list = [s.strip() for s in subreddits.split(",")]`
(an absent or empty parameter filters nothing). -/
def applySubredditCsv (subs : Option String) (posts : List StoredPost) :
    List StoredPost :=
  match subs with
  | none => posts
  | some s =>
      if s = "" then posts
      else
        let subList := (pySplitComma s).map pyStrip
        posts.filter (fun p => p.subreddit ∈ subList)

/-- The single-subreddit SQL filter of the distribution/timeline endpoints:
applied only when the parameter is present, nonempty and not "all". -/
def sqlSubFilter (subFilter : Option String) (posts : List StoredPost) :
    List StoredPost :=
  match subFilter with
  | none => posts
  | some s =>
      if s ≠ "" ∧ s.toLower ≠ "all" then posts.filter (fun p => p.subreddit = s)
      else posts

/-- The counting loop of `search_posts` (and the list comprehensions of the
analysis endpoints): `positive` and `negative` on exact label match, every
other post — unset sentiment included — counted as neutral.
Returns `(positive, neutral, negative)`. -/
def searchCounts (posts : List StoredPost) : Nat × Nat × Nat :=
  posts.foldl
    (fun acc post =>
      if post.sentiment = some "positive" then (acc.1 + 1, acc.2.1, acc.2.2)
      else if post.sentiment = some "negative" then (acc.1, acc.2.1, acc.2.2 + 1)
      else (acc.1, acc.2.1 + 1, acc.2.2))
    (0, 0, 0)

/-! ### Sentiment distribution (`get_distribution`)

`GROUP BY sentiment` produces one `(sentiment, COUNT(*))` row per distinct
stored sentiment value; the dict update keeps a row only when the
lowercased value is one of the three category keys, later rows with the
same lowercased value overwriting earlier ones. Group order in sqlite is
unspecified; the model uses first-occurrence order of the values. -/

/-- Distinct-value groups with their counts over a prepared row set. -/
def sentimentGroups (rows : List StoredPost) : List (String × Nat) :=
  ((rows.map (fun p => p.sentiment.getD "")).dedup).map
    (fun s => (s, (rows.filter (fun p => p.sentiment.getD "" = s)).length))

/-- The dict fold of `get_distribution`: the bucket for `cat` is the count
of the last group whose lowercased sentiment equals `cat`, defaulting 0. -/
def distLookup (groups : List (String × Nat)) (cat : String) : Nat :=
  groups.foldl (fun acc g => if g.1.toLower = cat then g.2 else acc) 0

/-- The row set both distribution and timeline aggregate over:
optional subreddit filter, `created_utc > cutoff`, `sentiment IS NOT NULL`. -/
def windowRows (posts : List StoredPost) (subFilter : Option String)
    (cutoff : Int) : List StoredPost :=
  (sqlSubFilter subFilter posts).filter
    (fun p => cutoff < p.created_utc ∧ p.sentiment.isSome)

/-- The three buckets over a prepared row set. -/
def distBuckets (rows : List StoredPost) : Nat × Nat × Nat :=
  (distLookup (sentimentGroups rows) "positive",
   distLookup (sentimentGroups rows) "neutral",
   distLookup (sentimentGroups rows) "negative")

/-- Model of `get_distribution`: buckets `(positive, neutral, negative)`
over the posts of the last `days` days. -/
def get_distribution (posts : List StoredPost) (subFilter : Option String)
    (now : Int) (days : Nat) : Nat × Nat × Nat :=
  distBuckets (windowRows posts subFilter (now - (days : Int) * secPerDay))

/-! ### Sentiment timeline (`get_timeline`) -/

/-- The timeline response: per-bucket day labels and counts. -/
structure TimelineData where
  labels : List Int
  positive : List Nat
  neutral : List Nat
  negative : List Nat
deriving DecidableEq

/-- `GROUP BY DATE(created_utc), sentiment` with counts. -/
def timelineGroups (rows : List StoredPost) : List ((Int × String) × Nat) :=
  ((rows.map (fun p => (dayOf p.created_utc, p.sentiment.getD ""))).dedup).map
    (fun k => (k, (rows.filter
      (fun p => (dayOf p.created_utc, p.sentiment.getD "") = k)).length))

/-- The nested dict of `get_timeline`: `date_data[d][cat]`, defaulting 0
for missing days or categories. -/
def timelineLookup (groups : List ((Int × String) × Nat)) (d : Int)
    (cat : String) : Nat :=
  groups.foldl (fun acc g => if g.1.1 = d ∧ g.1.2.toLower = cat then g.2 else acc) 0

/-- The label loop of `get_timeline`: `i = days-1, ..., 0`, each label the
calendar day of `cutoff + i` days where `cutoff = now - days` days. -/
def timelineLabels (now : Int) (days : Nat) : List Int :=
  ((List.range days).reverse).map
    (fun i : Nat => dayOf (now - (days : Int) * secPerDay + (i : Int) * secPerDay))

/-- Model of `get_timeline`: the labels above, each paired with the dict
counts for its day. -/
def get_timeline (posts : List StoredPost) (subFilter : Option String)
    (now : Int) (days : Nat) : TimelineData :=
  { labels := timelineLabels now days,
    positive := (timelineLabels now days).map (fun d =>
      timelineLookup (timelineGroups (windowRows posts subFilter
        (now - (days : Int) * secPerDay))) d "positive"),
    neutral := (timelineLabels now days).map (fun d =>
      timelineLookup (timelineGroups (windowRows posts subFilter
        (now - (days : Int) * secPerDay))) d "neutral"),
    negative := (timelineLabels now days).map (fun d =>
      timelineLookup (timelineGroups (windowRows posts subFilter
        (now - (days : Int) * secPerDay))) d "negative") }

/-! ### Citations, payloads and the analysis pipelines

Both analysis endpoints: comma-list subreddit filter, stable sort by
engagement `(score or 0) + (num_comments or 0)` descending, truncation to
`limit`, categorization, percentages, tone, up-to-3 citations per category.
External generative calls are modelled by passing in the outcome the call
would have produced; prompt construction (pure string plumbing consumed
only by the external service) is elided from the model. -/

/-- Model of Python `s or d` for an optional string defaulted by a truthy
check (an empty string is falsy). -/
def pyOrStr (s : Option String) (d : String) : String :=
  match s with
  | some "" => d
  | some t => t
  | none => d

/-- A citation as `make_citation` builds it. -/
structure Citation where
  title : String
  subreddit : String
  author : String
  sentiment : String
  score : Int
  url : String
deriving DecidableEq

/-- `make_citation`: title truncated to 100 characters with an ellipsis,
sentiment defaulting to "unknown", url from the permalink. -/
def make_citation (post : StoredPost) : Citation :=
  { title := if 100 < post.title.length then post.title.take 100 ++ "..." else post.title,
    subreddit := post.subreddit,
    author := post.author,
    sentiment := pyOrStr post.sentiment "unknown",
    score := post.score,
    url := post.permalink }

/-- Engagement key of the analysis sort:
`(x.score or 0) + (x.num_comments or 0)` (the `or 0` is the identity on
integers). -/
def engagement (p : StoredPost) : Int := p.score + p.num_comments

/-- Stable insertion into a descending-sorted list: the inserted element
(its original position being earlier) goes before later elements with an
equal key. -/
def insertDescBy (k : StoredPost → Int) (x : StoredPost) :
    List StoredPost → List StoredPost
  | [] => [x]
  | y :: ys => if k x < k y then y :: insertDescBy k x ys else x :: y :: ys

/-- Model of Python `list.sort(key=k, reverse=True)`: the stable
descending sort by `k`. -/
def sortDescBy (k : StoredPost → Int) (l : List StoredPost) :
    List StoredPost :=
  l.foldr (insertDescBy k) []

/-- The post set both analysis endpoints work on: subreddit filter, then
engagement sort, then truncation to `limit`. -/
def analysisPosts (subs : Option String) (limit : Nat)
    (matched : List StoredPost) : List StoredPost :=
  (sortDescBy engagement (applySubredditCsv subs matched)).take limit

/-- `[p for p in all_posts if p.sentiment == "positive"]`. -/
def positivePosts (posts : List StoredPost) : List StoredPost :=
  posts.filter (fun p => p.sentiment = some "positive")

/-- `[p for p in all_posts if p.sentiment == "negative"]`. -/
def negativePosts (posts : List StoredPost) : List StoredPost :=
  posts.filter (fun p => p.sentiment = some "negative")

/-- The neutral bucket of both analysis endpoints: everything that is not
labelled exactly positive or negative — unset sentiment included. -/
def neutralPosts (posts : List StoredPost) : List StoredPost :=
  posts.filter (fun p => p.sentiment ≠ some "positive" ∧ p.sentiment ≠ some "negative")

/-- The tone the analysis pipelines derive from a post set. -/
def toneOf (posts : List StoredPost) : String :=
  overallTone (pctOf (positivePosts posts).length posts.length)
    (pctOf (negativePosts posts).length posts.length)

/-- The composed analysis payload (the `SearchAnalysis` response body or the
data of a streaming `complete` event, with its nested sentiment summary
flattened). -/
structure CompletePayload where
  query : String
  summary : String
  positive : Nat
  neutral : Nat
  negative : Nat
  total : Nat
  positive_percent : Rat
  negative_percent : Rat
  overall_tone : String
  positive_examples : List Citation
  negative_examples : List Citation
  neutral_examples : List Citation
deriving DecidableEq

/-- The zero-match payload both endpoints emit. -/
def noPostsPayload (q : String) : CompletePayload :=
  { query := q, summary := "No posts found about '" ++ q ++ "'",
    positive := 0, neutral := 0, negative := 0, total := 0,
    positive_percent := 0, negative_percent := 0, overall_tone := "Unknown",
    positive_examples := [], negative_examples := [], neutral_examples := [] }

/-! ### The streaming summarization protocol (`search_analysis_stream`) -/

/-- Server-sent events of the streaming endpoint. -/
inductive StreamEvent where
  | statusEv (msg : String)
  | sentimentEv (positive neutral negative total : Nat) (pp np : Rat) (tone : String)
  | summaryChunkEv (chunk accumulated : String)
  | completeEv (payload : CompletePayload)
deriving DecidableEq

/-- Outcome of the streamed summarizer call. Each received line is `some
chunk` when it strips to a `data: ` line whose JSON decodes with a
`content` field, `none` otherwise; `raised` is an exception (connection
error, timeout, mid-stream failure) thrown after the given lines were
processed. -/
inductive SummStreamOutcome where
  | raised (lines : List (Option String))
  | response (status : Nat) (lines : List (Option String))

/-- The chunk loop: each usable line appends to `accumulated` and yields a
`summary_chunk` event carrying the chunk and the text so far. -/
def chunkFold (lines : List (Option String)) : List StreamEvent × String :=
  lines.foldl
    (fun acc l =>
      match l with
      | some c => (acc.1 ++ [.summaryChunkEv c (acc.2 ++ c)], acc.2 ++ c)
      | none => acc)
    ([], "")

/-- The deterministic fallback template of the streaming endpoint. -/
def fallbackSummary (n : Nat) (q tone : String) (pc nc nuc : Nat) : String :=
  "Found " ++ toString n ++ " discussions about '" ++ q ++
  "'. The community sentiment is " ++ tone.toLower ++ " with " ++
  toString pc ++ " positive, " ++ toString nc ++ " negative, and " ++
  toString nuc ++ " neutral reactions."

/-- The fallback for a given query and analysed post set. -/
def streamFallback (q : String) (posts : List StoredPost) : String :=
  fallbackSummary posts.length q (toneOf posts)
    (positivePosts posts).length (negativePosts posts).length
    (neutralPosts posts).length

/-- The summarization stage: on a 200 response the accumulated chunk text
(also when empty, since `accumulated` was initialised before the loop and
the final `dir()` test finds it bound); on an exception the chunks emitted
so far followed by the fallback text; on a non-200 status no chunks and —
`accumulated` never having been bound — the fallback text. -/
def summaryStage (outcome : SummStreamOutcome) (fallback : String) :
    List StreamEvent × String :=
  match outcome with
  | .raised lines => ((chunkFold lines).1, fallback)
  | .response status lines =>
      if status = 200 then chunkFold lines else ([], fallback)

/-- Model of the `event_generator` of `search_analysis_stream`. -/
def event_generator (q : String) (matched : List StoredPost)
    (subs : Option String) (limit : Nat) (outcome : SummStreamOutcome) :
    List StreamEvent :=
  StreamEvent.statusEv ("Searching for posts about \"" ++ q ++ "\"...") ::
  (if matched.isEmpty then
    [.completeEv (noPostsPayload q)]
  else
    .statusEv ("Found " ++ toString matched.length ++ " posts, fetching details...") ::
    (let posts := analysisPosts subs limit matched
     let pc := (positivePosts posts).length
     let nc := (negativePosts posts).length
     let nuc := (neutralPosts posts).length
     let total := posts.length
     let pp := pctOf pc total
     let np := pctOf nc total
     let tone := overallTone pp np
     let stage := summaryStage outcome (streamFallback q posts)
     .sentimentEv pc nuc nc total (pyRound1 pp) (pyRound1 np) tone ::
     .statusEv "Generating AI summary..." ::
     (stage.1 ++
      [.completeEv
        { query := q, summary := stage.2,
          positive := pc, neutral := nuc, negative := nc, total := total,
          positive_percent := pyRound1 pp, negative_percent := pyRound1 np,
          overall_tone := tone,
          positive_examples := ((positivePosts posts).take 3).map make_citation,
          negative_examples := ((negativePosts posts).take 3).map make_citation,
          neutral_examples := ((neutralPosts posts).take 3).map make_citation }])))

/-- The summary strings of the complete events of a stream. -/
def completeSummaries (evs : List StreamEvent) : List String :=
  evs.filterMap (fun e =>
    match e with
    | .completeEv p => some p.summary
    | _ => none)

/-- Discriminator for complete events. -/
def isCompleteEv (e : StreamEvent) : Bool :=
  match e with
  | .completeEv _ => true
  | _ => false

/-- Discriminator for sentiment-statistics events. -/
def isSentimentEv (e : StreamEvent) : Bool :=
  match e with
  | .sentimentEv _ _ _ _ _ _ _ => true
  | _ => false

/-- Discriminator for summarization chunk events. -/
def isChunkEv (e : StreamEvent) : Bool :=
  match e with
  | .summaryChunkEv _ _ => true
  | _ => false

/-! ### The non-streaming analysis path (`search_analysis` and
`generate_topic_summary`)

The prompt of `generate_topic_summary` is an f-string whose expressions are
evaluated against the names bound in the function's scope; referencing an
unbound name raises `NameError` at that point, before the `try` block and
before any external call. -/

/-- Python runtime errors the model tracks. -/
inductive PyError where
  | nameError (n : String)
deriving DecidableEq

/-- The module-level names of `api.py` (imports, constants, classes and
functions) visible from inside `generate_topic_summary`. -/
def moduleGlobals : List String :=
  ["asyncio", "asynccontextmanager", "FastAPI", "HTTPException", "Query",
   "BackgroundTasks", "CORSMiddleware", "StaticFiles", "FileResponse",
   "StreamingResponse", "BaseModel", "List", "Optional", "Any", "datetime",
   "timedelta", "Path", "sqlite3", "json", "urllib", "aiohttp", "re", "date",
   "adapt_datetime", "convert_datetime", "AI_SUBREDDITS",
   "FETCH_INTERVAL_MINUTES", "MAX_POSTS_PER_FETCH", "KEEP_MONTHS", "app",
   "BASE_DIR", "JS_DIR", "CSS_DIR", "DB_PATH", "LLAMA_SERVER_URL", "Post",
   "Citation", "SentimentSummary", "SearchAnalysis", "SentimentDistribution",
   "TimelineData", "SearchResult", "SubredditStats", "init_db",
   "cleanup_old_posts", "fetch_reddit_posts", "analyze_sentiment",
   "store_post", "fetch_and_analyze_subreddit", "background_fetcher",
   "lifespan", "root", "get_subreddits", "get_stats", "search_posts",
   "search_analysis", "search_analysis_stream", "generate_topic_summary",
   "get_posts", "get_distribution", "get_timeline", "trigger_analysis"]

/-- The names bound in `generate_topic_summary` when its prompt f-string is
evaluated: parameters, the locals assigned before it, and the module
globals. -/
def topicSummaryScope : List String :=
  ["query", "posts", "positive", "negative", "neutral", "tone",
   "snippets", "post", "content", "content_text"] ++ moduleGlobals

/-- The names the prompt f-string of `generate_topic_summary` references,
in evaluation order. -/
def topicPromptNames : List String :=
  ["query", "positive_count", "negative_count", "neutral_count",
   "overall_tone", "content_text"]

/-- The first referenced name not bound in the scope — the name whose
lookup raises `NameError`. -/
def firstUnbound (refs env : List String) : Option String :=
  refs.find? (fun n => !(env.contains n))

/-- The fallback template of `generate_topic_summary` (it differs from the
streaming one by a trailing sentence). -/
def nonStreamFallback (query : String) (posts : List StoredPost)
    (positive negative neutral : Nat) (tone : String) : String :=
  "Found " ++ toString posts.length ++ " discussions about '" ++ query ++
  "'. The community sentiment is " ++ tone.toLower ++ " with " ++
  toString positive ++ " positive, " ++ toString negative ++
  " negative, and " ++ toString neutral ++
  " neutral reactions. People seem to be discussing " ++ query ++
  " with varied opinions."

/-- The cleanup applied to a 200-response content:
`strip`, remove the chat-template markers, `strip` again. -/
def cleanedContent (c : String) : String :=
  (((c.trim).replace "<|im_start|>" "").replace "<|im_end|>" "").trim

/-- Model of `generate_topic_summary`: early return on an empty post list;
otherwise the prompt f-string is evaluated and raises `NameError` on its
first unbound name; were every name bound, the single-shot external call
would run with the usual fallbacks. The second component counts external
calls issued. -/
def generate_topic_summary (query : String) (posts : List StoredPost)
    (positive negative neutral : Nat) (tone : String)
    (outcome : LlamaOutcome) : Except PyError String × Nat :=
  if posts.isEmpty then
    (.ok ("No discussions found about '" ++ query ++ "'."), 0)
  else
    match firstUnbound topicPromptNames topicSummaryScope with
    | some n => (.error (.nameError n), 0)
    | none =>
        match outcome with
        | .failure =>
            (.ok (nonStreamFallback query posts positive negative neutral tone), 1)
        | .response status content =>
            if status = 200 then
              let c := cleanedContent (content.getD "")
              if c ≠ "" then (.ok c, 1)
              else (.ok (nonStreamFallback query posts positive negative neutral tone), 1)
            else (.ok (nonStreamFallback query posts positive negative neutral tone), 1)

/-- Model of the `search_analysis` endpoint: zero-match payload when the
full-text search finds nothing, otherwise the composed payload — unless
`generate_topic_summary` raises, in which case the error propagates and no
payload is returned. The second component counts external calls. -/
def search_analysis (q : String) (matched : List StoredPost)
    (subs : Option String) (limit : Nat) (outcome : LlamaOutcome) :
    Except PyError CompletePayload × Nat :=
  if matched.isEmpty then (.ok (noPostsPayload q), 0)
  else
    let posts := analysisPosts subs limit matched
    let pc := (positivePosts posts).length
    let nc := (negativePosts posts).length
    let nuc := (neutralPosts posts).length
    let total := posts.length
    let pp := pctOf pc total
    let np := pctOf nc total
    let tone := overallTone pp np
    let gen := generate_topic_summary q posts pc nc nuc tone outcome
    match gen.1 with
    | .error e => (.error e, gen.2)
    | .ok summary =>
        (.ok { query := q, summary := summary,
               positive := pc, neutral := nuc, negative := nc, total := total,
               positive_percent := pyRound1 pp, negative_percent := pyRound1 np,
               overall_tone := tone,
               positive_examples := ((positivePosts posts).take 3).map make_citation,
               negative_examples := ((negativePosts posts).take 3).map make_citation,
               neutral_examples := ((neutralPosts posts).take 3).map make_citation },
         gen.2)

/-! ### Helper lemmas -/

theorem find?_filter_of_imp {p q : StoredPost → Bool} (l : List StoredPost)
    (h : ∀ x, p x = true → q x = true) :
    (l.filter q).find? p = l.find? p := by
  induction l with
  | nil => rfl
  | cons a t ih =>
      by_cases hq : q a = true
      · by_cases hp : p a = true
        · simp [List.filter_cons, hq, List.find?_cons, hp]
        · simp only [List.filter_cons, hq, if_true]
          simp [List.find?_cons, hp, ih]
      · have hp : p a = false := by
          cases hpa : p a with
          | true => exact absurd (h a hpa) hq
          | false => rfl
        simp [List.filter_cons, hq, List.find?_cons, hp, ih]

theorem findPost_store_post (now : Int) (store : List StoredPost)
    (post : RawPost) (s : Option String) (sc : Option Rat) (pid : String) :
    findPost (store_post now store post s sc) pid =
      if post.id = pid then some (mkStored now post s sc)
      else findPost store pid := by
  unfold findPost store_post
  rw [List.find?_append]
  by_cases h : post.id = pid
  · subst h
    have h1 : (store.filter (fun r => r.id ≠ post.id)).find?
        (fun r => r.id = post.id) = none := by
      rw [List.find?_eq_none]
      intro x hx
      have := List.of_mem_filter hx
      simp only [ne_eq, decide_not, Bool.not_eq_true, decide_eq_false_iff_not,
        Bool.not_eq_true', decide_eq_false_iff_not] at this
      simp [this]
    simp [h1, List.find?, mkStored]
  · have h2 : (List.find? (fun r => decide (r.id = pid)) [mkStored now post s sc]) = none := by
      simp [List.find?, mkStored, h]
    rw [find?_filter_of_imp]
    · simp only [if_neg h]
      cases hf : store.find? (fun r => decide (r.id = pid)) <;> simp [hf, h2]
    · intro x hx
      simp only [decide_eq_true_eq] at hx
      simp [hx]
      intro hcon
      exact h hcon.symm

theorem ingest_preserves (now : Int) (oracle : RawPost → LlamaOutcome)
    (posts : List RawPost) :
    ∀ (acc : IngestResult) (pid : String) (r : StoredPost),
      findPost acc.store pid = some r →
      findPost ((posts.foldl (ingestStep now oracle) acc).store) pid = some r := by
  induction posts with
  | nil => intro acc pid r h; exact h
  | cons p t ih =>
      intro acc pid r h
      simp only [List.foldl_cons]
      apply ih
      unfold ingestStep
      by_cases he : existsId acc.store p.id
      · simp [he, h]
      · simp only [he, Bool.false_eq_true, if_false]
        have hne : p.id ≠ pid := by
          intro hc
          subst hc
          unfold existsId at he
          rw [h] at he
          simp at he
        simp [findPost_store_post, hne, h]

theorem ingest_skips_existing (now : Int) (oracle : RawPost → LlamaOutcome)
    (posts : List RawPost) :
    ∀ (acc : IngestResult), (∀ p ∈ posts, existsId acc.store p.id = true) →
      posts.foldl (ingestStep now oracle) acc = acc := by
  induction posts with
  | nil => intro acc _; rfl
  | cons p t ih =>
      intro acc h
      simp only [List.foldl_cons]
      have hp : existsId acc.store p.id = true := h p (by simp)
      have hstep : ingestStep now oracle acc p = acc := by
        unfold ingestStep
        simp [hp]
      rw [hstep]
      exact ih acc (fun x hx => h x (by simp [hx]))

/-! ### Claim theorems -/

/-- C1: re-ingestion is idempotent and classification write-once. For any
post id already present in the store, an ingestion run never touches that
id's record (in particular its sentiment); and when every fetched post
already exists by id, the run returns the store unchanged with zero
classifier calls and zero store mutations. -/
theorem reingest_idempotent_writeonce (now : Int)
    (oracle : RawPost → LlamaOutcome) (store : List StoredPost)
    (posts : List RawPost) :
    (∀ (pid : String) (r : StoredPost), findPost store pid = some r →
      findPost ((fetch_and_analyze now oracle store posts).store) pid = some r)
    ∧ ((∀ p ∈ posts, existsId store p.id = true) →
      fetch_and_analyze now oracle store posts = ⟨store, 0, 0⟩) := by
  constructor
  · intro pid r h
    exact ingest_preserves now oracle posts ⟨store, 0, 0⟩ pid r h
  · intro h
    exact ingest_skips_existing now oracle posts ⟨store, 0, 0⟩ h

/-- Fixture: a stored post with id "a" and unset sentiment. -/
def stored0 : StoredPost :=
  { id := "a", title := "hello world", selftext := "", author := "u",
    score := 3, ups := 3, downs := 0, num_comments := 2, created_utc := 86400,
    permalink := "https://reddit.com/a", url := "", subreddit := "LocalLLaMA",
    sentiment := none, sentiment_score := none, analyzed_at := none }

/-- Fixture: a fetched post with the same id "a". -/
def raw0 : RawPost :=
  { id := "a", title := "hello world", selftext := "", author := "u",
    score := 3, ups := 3, downs := 0, num_comments := 2, created_utc := 86400,
    permalink := "https://reddit.com/a", url := "", subreddit := "LocalLLaMA" }

theorem reingest_idempotent_writeonce_witness :
    findPost ((fetch_and_analyze 0 (fun _ => .failure) [stored0] [raw0]).store) "a"
      = some stored0
    ∧ fetch_and_analyze 0 (fun _ => .failure) [stored0] [raw0] = ⟨[stored0], 0, 0⟩ :=
  ⟨(reingest_idempotent_writeonce 0 (fun _ => .failure) [stored0] [raw0]).1 "a" stored0
      (by decide),
   (reingest_idempotent_writeonce 0 (fun _ => .failure) [stored0] [raw0]).2 (by decide)⟩

/-- C2: the classifier client implements exactly the specified parsing
policy (neutral default, POSITIVE/NEGATIVE token containment with default
scores plus-minus 0.7, first in-range signed decimal overriding the score
without re-deriving the category, unset/unset on every failure); and a post
whose classification fails is stored with sentiment and score left unset. -/
theorem classifier_parsing_policy (r : LlamaOutcome) :
    analyze_sentiment r = classifySpecPolicy r
    ∧ (∀ (now : Int) (store : List StoredPost) (post : RawPost),
        existsId store post.id = false → r = .failure →
        (findPost ((fetch_and_analyze now (fun _ => r) store [post]).store) post.id).map
            (fun rec => (rec.sentiment, rec.sentiment_score))
          = some (none, none)) := by
  refine ⟨analyze_sentiment_eq_spec r, ?_⟩
  intro now store post hex hr
  subst hr
  unfold fetch_and_analyze
  simp only [List.foldl_cons, List.foldl_nil]
  unfold ingestStep
  simp only [hex, Bool.false_eq_true, if_false]
  simp [findPost_store_post, analyze_sentiment, mkStored, pyOrNone]

theorem classifier_parsing_policy_witness :
    analyze_sentiment .failure = classifySpecPolicy .failure
    ∧ (findPost ((fetch_and_analyze 0 (fun _ => .failure) [] [raw0]).store) raw0.id).map
        (fun rec => (rec.sentiment, rec.sentiment_score)) = some (none, none) :=
  ⟨(classifier_parsing_policy .failure).1,
   (classifier_parsing_policy .failure).2 0 [] raw0 (by decide) rfl⟩

/-- C3: `overallTone` is a pure function returning exactly one of the six
labels, chosen by the first matching rule of the priority-ordered table,
with the four cited example inputs mapping as claimed. -/
theorem overall_tone_policy :
    (∀ pp np : Rat, overallTone pp np = firstMatchingTone pp np
      ∧ overallTone pp np ∈ toneLabels)
    ∧ overallTone 70 10 = "Mostly Positive"
    ∧ overallTone 45 45 = "Mixed (Polarized)"
    ∧ overallTone 35 10 = "Slightly Positive"
    ∧ overallTone 25 25 = "Neutral/Mixed" := by
  refine ⟨fun pp np => ⟨?_, ?_⟩, by decide, by decide, by decide, by decide⟩
  · simp only [overallTone, firstMatchingTone, toneTable, selectTone,
      decide_eq_true_eq]
  · unfold overallTone
    split_ifs <;> simp [toneLabels]

/-- C9: the percentage computation is total — `count / total * 100` when
`total > 0`, and `0` for both percentages when `total = 0`, with no
division-by-zero error possible. -/
theorem percentages_total (c t : Nat) :
    (0 < t → pctOf c t = (c : Rat) / (t : Rat) * 100)
    ∧ (t = 0 → pctOf c t = 0) := by
  constructor
  · intro h
    simp [pctOf, h]
  · intro h
    subst h
    simp [pctOf]

theorem percentages_total_witness :
    pctOf 1 2 = (1 : Rat) / (2 : Rat) * 100 ∧ pctOf 3 0 = 0 :=
  ⟨(percentages_total 1 2).1 (by norm_num), (percentages_total 3 0).2 rfl⟩

/-! ### Streaming lemmas -/

theorem completeSummaries_append (a b : List StreamEvent) :
    completeSummaries (a ++ b) = completeSummaries a ++ completeSummaries b := by
  simp [completeSummaries, List.filterMap_append]

theorem chunkFold_go_summaries (lines : List (Option String)) :
    ∀ (evs : List StreamEvent) (acc : String),
      completeSummaries ((lines.foldl
        (fun acc l =>
          match l with
          | some c => (acc.1 ++ [.summaryChunkEv c (acc.2 ++ c)], acc.2 ++ c)
          | none => acc) (evs, acc)).1) = completeSummaries evs := by
  induction lines with
  | nil => intro evs acc; rfl
  | cons l t ih =>
      intro evs acc
      cases l with
      | none => exact ih evs acc
      | some c =>
          simp only [List.foldl_cons]
          rw [ih]
          simp [completeSummaries_append, completeSummaries]

theorem completeSummaries_chunkFold (lines : List (Option String)) :
    completeSummaries (chunkFold lines).1 = [] :=
  chunkFold_go_summaries lines [] ""

/-- The concatenation of the usable chunks of a summarizer stream. -/
def joinChunks (lines : List (Option String)) : String :=
  lines.foldl
    (fun a l =>
      match l with
      | some c => a ++ c
      | none => a) ""

theorem chunkFold_go_snd (lines : List (Option String)) :
    ∀ (evs : List StreamEvent) (acc : String),
      ((lines.foldl
        (fun acc l =>
          match l with
          | some c => (acc.1 ++ [.summaryChunkEv c (acc.2 ++ c)], acc.2 ++ c)
          | none => acc) (evs, acc)).2) =
      lines.foldl
        (fun a l =>
          match l with
          | some c => a ++ c
          | none => a) acc := by
  induction lines with
  | nil => intro evs acc; rfl
  | cons l t ih =>
      intro evs acc
      cases l with
      | none => exact ih evs acc
      | some c => exact ih _ _

theorem chunkFold_snd (lines : List (Option String)) :
    (chunkFold lines).2 = joinChunks lines :=
  chunkFold_go_snd lines [] ""

/-- C5 (amended): a streaming query with zero full-text matches yields the
searching status event and then exactly one COMPLETE event — total 0, all
counts and percentages 0, tone "Unknown", empty example lists — whose
summary is the fixed "No posts found about '{query}'" text (not an empty
string); no sentiment-statistics event and no summary-chunk event is
emitted. -/
theorem stream_zero_matches (q : String) (subs : Option String) (limit : Nat)
    (outcome : SummStreamOutcome) :
    event_generator q [] subs limit outcome =
      [.statusEv ("Searching for posts about \"" ++ q ++ "\"..."),
       .completeEv (noPostsPayload q)]
    ∧ (event_generator q [] subs limit outcome).countP isCompleteEv = 1
    ∧ (event_generator q [] subs limit outcome).countP isSentimentEv = 0
    ∧ (event_generator q [] subs limit outcome).countP isChunkEv = 0 := by
  have h : event_generator q [] subs limit outcome =
      [.statusEv ("Searching for posts about \"" ++ q ++ "\"..."),
       .completeEv (noPostsPayload q)] := rfl
  refine ⟨h, ?_, ?_, ?_⟩ <;>
    (rw [h]; simp [List.countP_cons, isCompleteEv, isSentimentEv, isChunkEv])

/-- C5 counterexample: as frozen, the claim requires an empty summary
string in the zero-match COMPLETE event; the code emits the nonempty
"No posts found about '{query}'" text instead. -/
theorem stream_zero_matches_counterexample :
    completeSummaries (event_generator "x" [] none 30 (.response 200 []))
      = ["No posts found about 'x'"]
    ∧ "No posts found about 'x'" ≠ "" := by
  exact ⟨rfl, by decide⟩

/-- Fixture: a stored post with unset sentiment, used in counterexamples. -/
def post0 : StoredPost :=
  { id := "b", title := "model question", selftext := "", author := "v",
    score := 1, ups := 1, downs := 0, num_comments := 0, created_utc := 86400,
    permalink := "https://reddit.com/b", url := "", subreddit := "LocalLLaMA",
    sentiment := none, sentiment_score := none, analyzed_at := none }

/-- C6 (amended): in the streaming summarization stage the fallback text
(the deterministic template over counts and tone) becomes the final
summary exactly when the external call raises or returns a non-200
status; a 200 response delivers the concatenation of its usable chunks —
the empty string when there are none, not the fallback. -/
theorem stream_summary_fallback (q : String) (p : StoredPost)
    (ps : List StoredPost) (subs : Option String) (limit : Nat)
    (outcome : SummStreamOutcome) :
    (∀ lines, outcome = .raised lines →
      completeSummaries (event_generator q (p :: ps) subs limit outcome) =
        [streamFallback q (analysisPosts subs limit (p :: ps))])
    ∧ (∀ status lines, outcome = .response status lines → status ≠ 200 →
      completeSummaries (event_generator q (p :: ps) subs limit outcome) =
        [streamFallback q (analysisPosts subs limit (p :: ps))])
    ∧ (∀ lines, outcome = .response 200 lines →
      completeSummaries (event_generator q (p :: ps) subs limit outcome) =
        [joinChunks lines]) := by
  have hgen : ∀ oc, completeSummaries (event_generator q (p :: ps) subs limit oc) =
      completeSummaries (summaryStage oc
        (streamFallback q (analysisPosts subs limit (p :: ps)))).1 ++
      [(summaryStage oc (streamFallback q (analysisPosts subs limit (p :: ps)))).2] := by
    intro oc
    show completeSummaries (_ :: _ :: _ :: _ :: (_ ++ [StreamEvent.completeEv _])) = _
    simp only [completeSummaries, List.filterMap_cons, List.filterMap_append]
    rfl
  refine ⟨?_, ?_, ?_⟩
  · intro lines h
    subst h
    rw [hgen]
    simp [summaryStage, completeSummaries_chunkFold]
  · intro status lines h hst
    subst h
    rw [hgen]
    simp [summaryStage, hst, completeSummaries]
  · intro lines h
    subst h
    rw [hgen]
    simp [summaryStage, completeSummaries_chunkFold, chunkFold_snd]

theorem stream_summary_fallback_witness :
    completeSummaries (event_generator "x" [post0] none 30 (.raised [])) =
      [streamFallback "x" (analysisPosts none 30 [post0])] :=
  (stream_summary_fallback "x" post0 [] none 30 (.raised [])).1 [] rfl

/-- C6 counterexample: a 200 summarizer response with no usable chunk is
"no usable output", yet the final summary is the empty accumulated string,
not the deterministic fallback the claim requires. -/
theorem stream_summary_fallback_counterexample :
    completeSummaries (event_generator "x" [post0] none 30 (.response 200 []))
      = [""]
    ∧ "" ≠ streamFallback "x" (analysisPosts none 30 [post0]) := by
  constructor
  · rfl
  · decide

/-! ### C7: unset sentiment in the counting surfaces -/

theorem sqlSubFilter_filter_comm (sf : Option String) (q : StoredPost → Bool)
    (posts : List StoredPost) :
    sqlSubFilter sf (posts.filter q) = (sqlSubFilter sf posts).filter q := by
  cases sf with
  | none => rfl
  | some s =>
      simp only [sqlSubFilter]
      split
      · rw [List.filter_comm]
      · rfl

theorem windowRows_drop_unset (posts : List StoredPost) (sf : Option String)
    (cutoff : Int) :
    windowRows (posts.filter (fun p => p.sentiment.isSome)) sf cutoff =
      windowRows posts sf cutoff := by
  unfold windowRows
  rw [sqlSubFilter_filter_comm, List.filter_filter]
  apply List.filter_congr
  intro x _
  cases hs : x.sentiment.isSome <;> simp [hs]

theorem searchCounts_go (ps : List StoredPost) :
    ∀ a b c : Nat,
      ps.foldl
        (fun acc post =>
          if post.sentiment = some "positive" then (acc.1 + 1, acc.2.1, acc.2.2)
          else if post.sentiment = some "negative" then (acc.1, acc.2.1, acc.2.2 + 1)
          else (acc.1, acc.2.1 + 1, acc.2.2)) (a, b, c) =
      (a + (ps.filter (fun p => p.sentiment = some "positive")).length,
       b + (ps.filter (fun p => p.sentiment ≠ some "positive" ∧ p.sentiment ≠ some "negative")).length,
       c + (ps.filter (fun p => p.sentiment = some "negative")).length) := by
  induction ps with
  | nil => intro a b c; simp
  | cons p t ih =>
      intro a b c
      by_cases hp : p.sentiment = some "positive"
      · simp only [List.foldl_cons, hp, if_true, reduceIte, ih,
          List.filter_cons]
        simp [hp]
        omega
      · by_cases hn : p.sentiment = some "negative"
        · simp only [List.foldl_cons, hp, hn, if_true, if_false, reduceIte, ih,
            List.filter_cons]
          simp [hp, hn]
          omega
        · simp only [List.foldl_cons, hp, hn, if_false, reduceIte, ih,
            List.filter_cons]
          simp [hp, hn]
          omega

/-- C7 (amended): the distribution endpoint excludes unset sentiment from
all three buckets (dropping unset-sentiment posts does not change its
result); the search/analysis counting surfaces count exactly-labelled
posts in the positive and negative buckets but collect everything else —
unset sentiment included — into the neutral bucket. -/
theorem distribution_unset_handling (posts : List StoredPost)
    (subFilter : Option String) (now : Int) (days : Nat) :
    get_distribution posts subFilter now days =
      get_distribution (posts.filter (fun p => p.sentiment.isSome)) subFilter now days
    ∧ (∀ ps : List StoredPost, searchCounts ps =
        ((ps.filter (fun p => p.sentiment = some "positive")).length,
         (ps.filter (fun p => p.sentiment ≠ some "positive" ∧ p.sentiment ≠ some "negative")).length,
         (ps.filter (fun p => p.sentiment = some "negative")).length)) := by
  constructor
  · unfold get_distribution
    rw [windowRows_drop_unset]
  · intro ps
    unfold searchCounts
    rw [searchCounts_go]
    simp

/-- C7 counterexample: a post with unset sentiment is counted in the
neutral bucket of the search counting loop, so unset sentiment does
contribute to a bucket on that surface. -/
theorem distribution_unset_counterexample :
    post0.sentiment = none ∧ searchCounts [post0] = (0, 1, 0) := by
  exact ⟨rfl, rfl⟩

/-! ### C8: the sweep and the cleanup step -/

/-- Discriminator for the cleanup trace event. -/
def isCleanupEv (e : SweepEvent) : Bool :=
  match e with
  | .cleanupRun => true
  | _ => false

/-- Whether a sweep result is a surviving store rather than an escaped
exception. -/
def sweepOk (r : Except String (List StoredPost)) : Bool :=
  match r with
  | .ok _ => true
  | .error _ => false

theorem runSource_not_cleanup (now : Int) (oracle : RawPost → LlamaOutcome)
    (st : List StoredPost) (src : String × Except String (List RawPost)) :
    isCleanupEv (runSource now oracle st src).2 = false := by
  cases h : src.2 <;> simp [runSource, h, isCleanupEv]

theorem sweep_fold_no_cleanup (now : Int) (oracle : RawPost → LlamaOutcome)
    (sources : List (String × Except String (List RawPost))) :
    ∀ acc : List StoredPost × List SweepEvent,
      ((sources.foldl (sweepStep now oracle) acc).2).countP isCleanupEv =
        acc.2.countP isCleanupEv := by
  induction sources with
  | nil => intro acc; rfl
  | cons src t ih =>
      intro acc
      simp only [List.foldl_cons]
      rw [ih]
      unfold sweepStep
      simp [List.countP_append, List.countP_cons, runSource_not_cleanup]

/-- C8 (amended): retention cleanup is invoked exactly once, after all
sources of the sweep; a failing source never fails the sweep (any
cleanup-ok sweep ends in a surviving store, regardless of source errors);
but an error raised by the cleanup delete is not caught and escapes the
loop body as the sweep's result. -/
theorem sweep_cleanup_once (now : Int) (oracle : RawPost → LlamaOutcome)
    (store : List StoredPost)
    (sources : List (String × Except String (List RawPost)))
    (cleanupOutcome : Except String Unit) :
    ((sweepOnce now oracle store sources cleanupOutcome).2).countP isCleanupEv = 1
    ∧ ((sweepOnce now oracle store sources cleanupOutcome).2).getLast? =
        some .cleanupRun
    ∧ (∀ u, cleanupOutcome = .ok u →
        sweepOk (sweepOnce now oracle store sources cleanupOutcome).1 = true)
    ∧ (∀ e, cleanupOutcome = .error e →
        (sweepOnce now oracle store sources cleanupOutcome).1 = .error e) := by
  unfold sweepOnce
  cases cleanupOutcome with
  | ok u =>
      simp only [cleanup_old_posts]
      refine ⟨?_, ?_, ?_, ?_⟩
      · rw [List.countP_append, sweep_fold_no_cleanup]
        rfl
      · exact List.getLast?_concat _
      · intro _ _
        rfl
      · intro e he
        exact absurd he (by simp)
  | error e =>
      simp only [cleanup_old_posts]
      refine ⟨?_, ?_, ?_, ?_⟩
      · rw [List.countP_append, sweep_fold_no_cleanup]
        rfl
      · exact List.getLast?_concat _
      · intro u hu
        exact absurd hu (by simp)
      · intro e2 he
        injection he with h
        rw [h]

theorem sweep_cleanup_once_witness :
    ((sweepOnce 0 (fun _ => .failure) [] [("a", .ok [])] (.ok ())).2).countP
        isCleanupEv = 1
    ∧ sweepOk (sweepOnce 0 (fun _ => .failure) [] [("a", .ok [])] (.ok ())).1 = true :=
  ⟨(sweep_cleanup_once 0 (fun _ => .failure) [] [("a", .ok [])] (.ok ())).1,
   (sweep_cleanup_once 0 (fun _ => .failure) [] [("a", .ok [])] (.ok ())).2.2.1 () rfl⟩

/-- C8 counterexample: an error raised during the retention delete is not
caught — the sweep's loop body ends in that error instead of a surviving
store, contradicting "never fails the sweep; delete errors are logged
only". -/
theorem sweep_cleanup_counterexample :
    (sweepOnce 0 (fun _ => .failure) [] [("a", Except.ok [])]
        (.error "disk full")).1 = .error "disk full"
    ∧ sweepOk (sweepOnce 0 (fun _ => .failure) [] [("a", Except.ok [])]
        (.error "disk full")).1 = false := by
  exact ⟨rfl, rfl⟩

/-! ### C4: the timeline window -/

theorem reverse_range_map {α : Type} (f : Nat → α) (n : Nat) :
    ((List.range n).reverse).map f =
      (List.range n).map (fun j => f (n - 1 - j)) := by
  apply List.ext_getElem (by simp)
  intro i h1 h2
  simp [List.getElem_reverse, List.getElem_range]

theorem dayOf_shift (t k : Int) : dayOf (t + k * secPerDay) = dayOf t + k := by
  unfold dayOf secPerDay
  rw [Int.fdiv_eq_ediv _ (by norm_num), Int.fdiv_eq_ediv _ (by norm_num)]
  exact Int.add_mul_ediv_right t k (by norm_num)

theorem timelineLabels_eq (now : Int) (days : Nat) :
    timelineLabels now days =
      (List.range days).map (fun j : Nat => dayOf now - 1 - (j : Int)) := by
  unfold timelineLabels
  rw [reverse_range_map]
  apply List.map_congr_left
  intro j hj
  rw [List.mem_range] at hj
  have hcast : ((days - 1 - j : Nat) : Int) = (days : Int) - 1 - (j : Int) := by
    omega
  have harg : now - (days : Int) * secPerDay + ((days - 1 - j : Nat) : Int) * secPerDay
      = now + (-(1 + (j : Int))) * secPerDay := by
    rw [hcast]; ring
  rw [harg, dayOf_shift]
  ring

theorem timelineLookup_skip (d : Int) (cat : String) :
    ∀ groups : List ((Int × String) × Nat), (∀ g ∈ groups, g.1.1 ≠ d) →
      timelineLookup groups d cat = 0 := by
  intro groups
  induction groups with
  | nil => intro _; rfl
  | cons g t ih =>
      intro h
      unfold timelineLookup
      simp only [List.foldl_cons]
      have hg : ¬(g.1.1 = d ∧ g.1.2.toLower = cat) := by
        intro hc
        exact h g (by simp) hc.1
      rw [if_neg hg]
      exact ih (fun x hx => h x (by simp [hx]))

theorem sqlSubFilter_subset (sf : Option String) (posts : List StoredPost) :
    ∀ p ∈ sqlSubFilter sf posts, p ∈ posts := by
  intro p hp
  cases sf with
  | none => exact hp
  | some s =>
      simp only [sqlSubFilter] at hp
      split at hp
      · exact List.mem_of_mem_filter hp
      · exact hp

theorem mem_windowRows (posts : List StoredPost) (sf : Option String)
    (cutoff : Int) (p : StoredPost) (hp : p ∈ windowRows posts sf cutoff) :
    p ∈ posts :=
  sqlSubFilter_subset sf posts p (List.mem_of_mem_filter hp)

theorem timelineGroups_day (rows : List StoredPost)
    (g : (Int × String) × Nat) (hg : g ∈ timelineGroups rows) :
    ∃ p ∈ rows, dayOf p.created_utc = g.1.1 := by
  unfold timelineGroups at hg
  obtain ⟨k, hk, hgk⟩ := List.mem_map.1 hg
  obtain ⟨p, hp, hpk⟩ := List.mem_map.1 (List.dedup_subset _ hk)
  refine ⟨p, hp, ?_⟩
  rw [← hgk]
  rw [← hpk]

/-- C4 (amended): `timeline(posts, days)` returns exactly `days` labelled
buckets, one per calendar day for the `days` consecutive days ending at
yesterday (the bucket for day index `j` is `today - 1 - j`), ordered
newest first; and every day in that window with no matching posts carries
all-zero counts — the timeline is dense, never sparse. In particular
`timeline(posts, 7)` always has exactly 7 buckets. -/
theorem timeline_dense_window (posts : List StoredPost) (sf : Option String)
    (now : Int) (days : Nat) :
    (get_timeline posts sf now days).labels.length = days
    ∧ (get_timeline posts sf now days).positive.length = days
    ∧ (get_timeline posts sf now days).neutral.length = days
    ∧ (get_timeline posts sf now days).negative.length = days
    ∧ (get_timeline posts sf now days).labels =
        (List.range days).map (fun j : Nat => dayOf now - 1 - (j : Int))
    ∧ (∀ j, j < days →
        (∀ p ∈ posts, dayOf p.created_utc ≠ dayOf now - 1 - (j : Int)) →
        (get_timeline posts sf now days).positive[j]? = some 0
        ∧ (get_timeline posts sf now days).neutral[j]? = some 0
        ∧ (get_timeline posts sf now days).negative[j]? = some 0) := by
  have hlen : (timelineLabels now days).length = days := by
    rw [timelineLabels_eq]
    simp
  refine ⟨?_, ?_, ?_, ?_, ?_, ?_⟩
  · exact hlen
  · show ((timelineLabels now days).map _).length = days
    simp [hlen]
  · show ((timelineLabels now days).map _).length = days
    simp [hlen]
  · show ((timelineLabels now days).map _).length = days
    simp [hlen]
  · exact timelineLabels_eq now days
  · intro j hj hnone
    have hgetlab : (timelineLabels now days)[j]? = some (dayOf now - 1 - (j : Int)) := by
      rw [timelineLabels_eq, List.getElem?_map, List.getElem?_range hj]
      rfl
    have hzero : ∀ cat, timelineLookup
        (timelineGroups (windowRows posts sf (now - (days : Int) * secPerDay)))
        (dayOf now - 1 - (j : Int)) cat = 0 := by
      intro cat
      apply timelineLookup_skip
      intro g hg
      obtain ⟨p, hp, hpd⟩ := timelineGroups_day _ g hg
      rw [← hpd]
      exact hnone p (mem_windowRows posts sf _ p hp)
    refine ⟨?_, ?_, ?_⟩ <;>
      (show ((timelineLabels now days).map _)[j]? = some 0
       rw [List.getElem?_map, hgetlab]
       simp [hzero])

theorem timeline_dense_window_witness :
    (get_timeline [] none 0 2).labels.length = 2
    ∧ (get_timeline [] none 0 2).positive[0]? = some 0 :=
  ⟨(timeline_dense_window [] none 0 2).1,
   ((timeline_dense_window [] none 0 2).2.2.2.2.2 0 (by decide)
      (by intro p hp; cases hp)).1⟩

/-- C4 counterexample: for `now = 0` (so `today` is calendar day 0) and
`days = 2` the produced labels are `[-1, -2]` — newest first and ending at
yesterday — not the `[-1, 0]` that "consecutive days ending at today,
ordered oldest first" requires. -/
theorem timeline_window_counterexample :
    (get_timeline [] none 0 2).labels = [-1, -2]
    ∧ [(-1 : Int), -2] ≠ [(-1 : Int), 0] := by
  exact ⟨rfl, by decide⟩

/-! ### C10: the unbound names of `generate_topic_summary` -/

theorem analysisPosts_nil (subs : Option String) (limit : Nat) :
    analysisPosts subs limit [] = [] := by
  unfold analysisPosts applySubredditCsv
  cases subs with
  | none => simp [sortDescBy]
  | some s => split <;> simp [sortDescBy]

/-- Whether the non-streaming analysis returned a composed payload rather
than propagating a raised error. -/
def analysisOk (r : Except PyError CompletePayload) : Bool :=
  match r with
  | .ok _ => true
  | .error _ => false

/-- Whether the non-streaming analysis propagated a `NameError`. -/
def analysisRaisedName (r : Except PyError CompletePayload) : Bool :=
  match r with
  | .error (.nameError _) => true
  | .ok _ => false

/-- C10 (amended): whenever the filtered, limited post set handed to
`generate_topic_summary` is nonempty, the prompt f-string's reference to
the unbound name `positive_count` raises `NameError` before any external
call and before the fallback branch, and the endpoint propagates the error
instead of returning its composed payload — in particular, with no
subreddit filter and a positive limit this happens for every query with at
least one full-text match.  When a subreddit filter or the limit empties
the set while matches exist, the helper's empty-input path runs instead
and the endpoint does return a payload. -/
theorem topic_summary_nameerror (q : String) (matched : List StoredPost)
    (subs : Option String) (limit : Nat) (outcome : LlamaOutcome) :
    (analysisPosts subs limit matched ≠ [] →
      search_analysis q matched subs limit outcome =
        (.error (.nameError "positive_count"), 0))
    ∧ (matched ≠ [] → analysisPosts subs limit matched = [] →
      analysisOk (search_analysis q matched subs limit outcome).1 = true) := by
  have hfu : firstUnbound topicPromptNames topicSummaryScope =
      some "positive_count" := by decide
  constructor
  · intro hne
    have hm : matched ≠ [] := by
      intro hc
      rw [hc, analysisPosts_nil] at hne
      exact hne rfl
    have hme : matched.isEmpty = false := by
      cases matched with
      | nil => exact absurd rfl hm
      | cons a t => rfl
    have hpe : (analysisPosts subs limit matched).isEmpty = false := by
      cases hap : analysisPosts subs limit matched with
      | nil => exact absurd hap hne
      | cons a t => rfl
    unfold search_analysis generate_topic_summary
    simp only [hme, hpe, Bool.false_eq_true, if_false, hfu]
  · intro hm hap
    have hme : matched.isEmpty = false := by
      cases matched with
      | nil => exact absurd rfl hm
      | cons a t => rfl
    unfold search_analysis generate_topic_summary
    simp only [hme, Bool.false_eq_true, if_false, hap, List.isEmpty_nil, if_true,
      reduceIte]
    rfl

theorem topic_summary_nameerror_witness :
    search_analysis "x" [post0] none 30 .failure =
      (.error (.nameError "positive_count"), 0)
    ∧ analysisOk (search_analysis "x" [post0] (some "other") 30 .failure).1 = true :=
  ⟨(topic_summary_nameerror "x" [post0] none 30 .failure).1 (by decide),
   (topic_summary_nameerror "x" [post0] (some "other") 30 .failure).2
      (by decide) (by decide)⟩

/-- C10 counterexample: one full-text match filtered away by a subreddit
filter empties the analysed set, so `generate_topic_summary` takes its
empty-input path and the endpoint returns a composed payload although a
match exists — against the claim's "never returns its composed payload
when matches exist". -/
theorem topic_summary_counterexample :
    analysisOk (search_analysis "x" [post0] (some "other") 30 .failure).1 = true
    ∧ analysisRaisedName (search_analysis "x" [post0] (some "other") 30 .failure).1
        = false := by
  exact ⟨rfl, rfl⟩

end RedditSenty
